import Mathlib

/-!
Verification of the OAuth token acquisition and caching core of
`vscode_abap_remote_fs` (file `oauth.ts`, embedded below as Lean
definitions).  The embedding models:

* the data model (`Token`, `TokenData`, `strip`, the serialized vault
  record as a small JSON-value type),
* the SecretVault adapter (`toVault`, `fromVaultT` with the try/catch
  modelled as an explicit `Except` handler),
* the grant orchestrator `oauthLogin` (`loginStart` for the synchronous
  part of the returned operation up to `await pendingGrant`,
  `loginResume` for the continuation, `runLogin` for one whole
  invocation, `runTwoLogins` for two interleaved invocations), and
* the side query `futureToken`.

External collaborators (the secret store, the OAuth refresh exchange,
the code-grant exchange and its settling time) are parameters of the
model; the JavaScript cooperative scheduling model makes every code
segment between two `await` suspension points atomic, which the phase
functions mirror.
-/

set_option autoImplicit false

namespace Oauth

/-- A full token as produced by the grant or the refresh exchange:
`accessToken`, `refreshToken`, `tokenType` plus protocol metadata
(expiry, scope, ...) that the core only passes through, collapsed here
into one `extra` field. -/
structure Token where
  accessToken : String
  refreshToken : String
  tokenType : String
  extra : String
  deriving DecidableEq, Repr

/-- Modelled from the spec: `TokenData` is declared in `./grantStorage`,
which is not under src/.  Spec section 4.1: the minimal serializable
projection of a token, keeping `accessToken`, `refreshToken` and
`tokenType`. -/
structure TokenData where
  accessToken : String
  refreshToken : String
  tokenType : String
  deriving DecidableEq, Repr

/-- Modelled from the spec: `strip` is exported by `./grantStorage`,
which is not under src/.  Spec section 4.1: `strip(token)` drops the
protocol fields not needed for restore, keeping
accessToken/refreshToken/tokenType. -/
def strip (t : Token) : TokenData :=
  ⟨t.accessToken, t.refreshToken, t.tokenType⟩

/-- JavaScript string truthiness: a string is truthy iff non-empty. -/
def truthy (s : String) : Bool :=
  s ≠ ""

/-- Escaping of one character of a connection name (see `formatKey`). -/
def escapeChar (c : Char) : Char :=
  if c.isAlphanum then c else '_'

/-- Modelled from the spec: `formatKey` is imported from `../config`,
which is not under src/.  Spec sections 2 and 4.2: the connection's
logical name is "escaped/normalized" into a deterministic key (the
vault key is that escape prefixed with a fixed namespace tag, and the
spec's example key is `vscode_git_<escaped-name>`).  Modelled as the
character-wise escape of every non-alphanumeric character to an
underscore. -/
def formatKey (s : String) : String :=
  ⟨s.data.map escapeChar⟩

/-- `const vaultId = (conn: string) => `vscode_git_${formatKey(conn)}`` -/
def vaultId (conn : String) : String :=
  "vscode_git_" ++ formatKey conn

/-- The per-connection OAuth configuration object
(`conf.oauth`): `clientId`, `clientSecret`, `loginUrl`,
`saveCredentials`.  The string fields may be empty (JavaScript-falsy)
even when the object is present. -/
structure OAuthConfig where
  clientId : String
  clientSecret : String
  loginUrl : String
  saveCredentials : Bool
  deriving DecidableEq, Repr

/-- `RemoteConfig` as consumed by this core: the connection name and
the optional `oauth` object. -/
structure RemoteConfig where
  name : String
  oauth : Option OAuthConfig
  deriving DecidableEq, Repr

/-- A field value of a parsed JSON record: a string or `null`.  (The
vault records written by this core only ever contain string fields;
richer field values are outside the modelled record grammar.) -/
inductive JField where
  | fstr (s : String)
  | fnull
  deriving DecidableEq, Repr

/-- A parsed JSON value as relevant to `deserializeToken`: an object
with string/null fields, a bare string, or `null`. -/
inductive JExpr where
  | jnull
  | jstr (s : String)
  | jobj (fields : List (String × JField))
  deriving DecidableEq, Repr

/-- A serialized vault string as seen by `JSON.parse`: the empty
(falsy) string, a malformed string on which `JSON.parse` throws, or a
well-formed string parsing to a `JExpr`. -/
inductive VaultStr where
  | empty
  | malformed
  | parsed (v : JExpr)
  deriving DecidableEq, Repr

/-- Property access `data.k` for the keys used by `deserializeToken`:
defined on objects by field lookup; on strings and `null || {}` the
destructured properties are `undefined`. -/
def getStrField (v : JExpr) (k : String) : Option String :=
  match v with
  | .jobj fields =>
    match fields.lookup k with
    | some (.fstr s) => some s
    | some .fnull => none
    | none => none
  | _ => none

/-- Truthiness of a destructured field: present and a non-empty
string. -/
def fieldTruthy (v : JExpr) (k : String) : Bool :=
  match getStrField v k with
  | some s => truthy s
  | none => false

/--
```
const deserializeToken = (s?: string): TokenData | undefined => {
  const data = s && JSON.parse(s)
  const { accessToken, refreshToken, tokenType } = data || {}
  if (accessToken && refreshToken && tokenType) return strip(data)
}
```
`JSON.parse` throwing on a malformed string is the `Except.error`
case; all other outcomes are `ok`. -/
def deserializeToken (s : Option VaultStr) : Except Unit (Option TokenData) :=
  match s with
  | none => .ok none
  | some .empty => .ok none
  | some .malformed => .error ()
  | some (.parsed v) =>
    if fieldTruthy v "accessToken" ∧ fieldTruthy v "refreshToken" ∧ fieldTruthy v "tokenType" then
      match getStrField v "accessToken", getStrField v "refreshToken", getStrField v "tokenType" with
      | some a, some r, some t => .ok (some ⟨a, r, t⟩)
      | _, _, _ => .ok none
    else .ok none

/-- `const serializeToken = (data: TokenData) => JSON.stringify(data)`:
the stringification of a `TokenData` parses back to the three-field
record. -/
def serializeToken (d : TokenData) : VaultStr :=
  .parsed (.jobj [("accessToken", .fstr d.accessToken),
                  ("refreshToken", .fstr d.refreshToken),
                  ("tokenType", .fstr d.tokenType)])

/-- The external collaborators used by the vault restore path, as
arbitrary behaviours: `getPassword key account` models
`vault.getPassword` (which may throw, or return null, or return a
string), and `refresh a r t` models
`oauth.createToken(a, r, t, {}).refresh()` (which may throw or return
a fresh token). -/
structure VaultEnv where
  getPassword : String → String → Except Unit (Option VaultStr)
  refresh : String → String → String → Except Unit Token

/-- The body of `fromVault`'s `try` block (lines 38-51): read the
secret, deserialize, refresh.  Any `Except.error` models a thrown
exception inside the `try`. -/
def fromVaultBody (env : VaultEnv) (o : OAuthConfig) (name : String) :
    Except Unit (Option TokenData) :=
  match env.getPassword (vaultId name) o.clientId with
  | .error e => .error e
  | .ok tp =>
    -- `const td = tp && deserializeToken(tp); if (!td) return none`
    match deserializeToken tp with
    | .error e => .error e
    | .ok none => .ok none
    | .ok (some d) =>
      match env.refresh d.accessToken d.refreshToken d.tokenType with
      | .error e => .error e
      | .ok token => .ok (some (strip token))

/--
```
const fromVault = async (conf: RemoteConfig) => {
  const { clientId, clientSecret, loginUrl } = conf.oauth || {}
  if (!(clientId && clientSecret && loginUrl)) return none
  const vault = new PasswordVault()
  try { ... } catch (error) { return none }
}
```
First component: the outcome of the call (`Except.error` would be a
rejection propagating to the caller).  Second component: the number of
`vault.getPassword` reads performed. -/
def fromVaultT (env : VaultEnv) (conf : RemoteConfig) :
    Except Unit (Option TokenData) × Nat :=
  match conf.oauth with
  | none => (.ok none, 0)
  | some o =>
    if truthy o.clientId ∧ truthy o.clientSecret ∧ truthy o.loginUrl then
      match fromVaultBody env o conf.name with
      | .ok r => (.ok r, 1)
      | .error _ => (.ok none, 1)
    else (.ok none, 0)

/--
```
const toVault = async (conf: RemoteConfig, token: Token) => {
  const serialized = serializeToken(strip(token))
  const { clientId, clientSecret, loginUrl } = conf.oauth || {}
  if (!(clientId && clientSecret && loginUrl)) return
  const vault = new PasswordVault()
  return vault.setPassword(vaultId(conf.name), clientId, serialized)
}
```
Returns the `setPassword` write performed, or `none` when the field
guard makes the save a no-op. -/
def toVault (conf : RemoteConfig) (token : Token) :
    Option (String × String × VaultStr) :=
  match conf.oauth with
  | none => none
  | some o =>
    if truthy o.clientId ∧ truthy o.clientSecret ∧ truthy o.loginUrl then
      some (vaultId conf.name, o.clientId, serializeToken (strip token))
    else none

/-! ### Association-list maps

`grantStorage`'s token map and the module-level
`pendingGrants = new Map<string, Promise<Token>>()` are modelled as
association lists with last-write-wins insert. -/

/-- Map lookup. -/
def lookupA {α : Type} (m : List (String × α)) (k : String) : Option α :=
  match m with
  | [] => none
  | (k0, v) :: rest => if k0 = k then some v else lookupA rest k

/-- `Map.set`: overwrite the binding of `k`. -/
def insertA {α : Type} (m : List (String × α)) (k : String) (v : α) :
    List (String × α) :=
  match m with
  | [] => [(k, v)]
  | (k0, v0) :: rest =>
    if k0 = k then (k, v) :: rest else (k0, v0) :: insertA rest k v

/-- `Map.delete`. -/
def eraseA {α : Type} (m : List (String × α)) (k : String) :
    List (String × α) :=
  match m with
  | [] => []
  | (k0, v0) :: rest =>
    if k0 = k then rest else (k0, v0) :: eraseA rest k

/-! ### Orchestrator state and phases -/

/-- The process-wide mutable state touched by one or more `login`
invocations, plus instrumentation counters for the effects the claims
talk about. -/
structure OState where
  /-- `grantStorage`'s connection-id-to-token map (`getToken`/`setToken`). -/
  tokens : List (String × TokenData)
  /-- `pendingGrants`: registry key to the identity of the registered
  in-flight grant. -/
  pending : List (String × Nat)
  /-- Next fresh identity for a started grant. -/
  nextGrantId : Nat
  /-- Each `cfCodeGrant(loginUrl, clientId, clientSecret, server)` call,
  with its credential arguments. -/
  grantCalls : List (String × String × String)
  /-- Number of `loginServer()` constructions. -/
  serversCreated : Nat
  /-- Number of `vault.getPassword` reads. -/
  vaultReads : Nat
  /-- Number of `server.server.close()` calls performed by the
  60-second timeout continuation. -/
  timeoutCloses : Nat
  /-- `vault.setPassword` writes (fire-and-forget saves). -/
  vaultWrites : List (String × String × VaultStr)
  deriving DecidableEq, Repr

/-- The empty initial state. -/
def OState.init : OState :=
  ⟨[], [], 0, [], 0, 0, 0, []⟩

/-- Modelled from the spec: `getToken` lives in `./grantStorage`, not
under src/.  Spec section 4.1: `get(connId) -> Token | absent` on the
in-memory map. -/
def getToken (s : OState) (connId : String) : Option TokenData :=
  lookupA s.tokens connId

/-- Modelled from the spec: `setToken` lives in `./grantStorage`, not
under src/.  Spec section 4.1: `set(connId, token)` on the in-memory
map. -/
def setToken (s : OState) (connId : String) (t : TokenData) : OState :=
  { s with tokens := insertA s.tokens connId t }

/-- Outcome of the synchronous part of one `login` invocation, from
entry up to (and excluding) `await pendingGrant`. -/
inductive StartOut where
  | fast (accessToken : String)
  | vaultErr
  | started (grantId : Nat)
  deriving DecidableEq, Repr

/-- Lines 61-74 of the returned operation: the fast path over
`getToken`, the vault restore path, then `loginServer()`,
`cfCodeGrant(...)`, the timeout construction, and
`pendingGrants.set(formatKey(connId), pendingGrant)`.  With
`saveCredentials` false this whole segment is synchronous (atomic
under cooperative scheduling); with it true, the only suspension is
the vault I/O inside `fromVault`. -/
def loginStart (conf : RemoteConfig) (o : OAuthConfig) (env : VaultEnv)
    (s : OState) : StartOut × OState :=
  let connId := formatKey conf.name
  match getToken s connId with
  | some g => (.fast g.accessToken, s)
  | none =>
    let (fv, reads) :=
      if o.saveCredentials then fromVaultT env conf else (.ok none, 0)
    let s := { s with vaultReads := s.vaultReads + reads }
    match fv with
    | .error _ => (.vaultErr, s)
    | .ok (some td) => (.fast td.accessToken, s)
    | .ok none =>
      let gid := s.nextGrantId
      let s := { s with
        serversCreated := s.serversCreated + 1,
        grantCalls := s.grantCalls ++ [(o.loginUrl, o.clientId, o.clientSecret)],
        nextGrantId := gid + 1,
        pending := insertA s.pending (formatKey connId) gid }
      (.started gid, s)

/-- How `Promise.race([grant, timeout])` settles for one invocation. -/
inductive RaceOut where
  | tok (t : Token)
  | grantErr
  | timedOut
  deriving DecidableEq, Repr

/-- How the external `cfCodeGrant` promise settles: `none` if it never
settles, otherwise the millisecond at which it settles and its
outcome (`none` inside the pair meaning rejection). -/
def race (settle : Option (Nat × Option Token)) : RaceOut :=
  match settle with
  | none => .timedOut
  | some (tg, r) =>
    if tg < 60000 then
      match r with
      | some t => .tok t
      | none => .grantErr
    else .timedOut

/-- The 60-second timer continuation
`after(60000).then(() => { server.server.close(); throw ... })`: the
timer always fires (whether or not it won the race) and closes the
login server when it does. -/
def timerFire (s : OState) : OState :=
  { s with timeoutCloses := s.timeoutCloses + 1 }

/-- Lines 75-79, the continuation after `await pendingGrant`:
```
const result = await pendingGrant
if (result) setToken(connId, result)
pendingGrants.delete(formatKey(connId))
if (saveCredentials) toVault(conf, result)
return result.accessToken
```
On a rejection `await` throws, so lines 76-79 do not run. -/
def loginResume (conf : RemoteConfig) (o : OAuthConfig) (out : RaceOut)
    (s : OState) : Except String String × OState :=
  let connId := formatKey conf.name
  match out with
  | .tok t =>
    let s := setToken s connId (strip t)
    let s := { s with pending := eraseA s.pending (formatKey connId) }
    let s :=
      if o.saveCredentials then
        match toVault conf t with
        | some w => { s with vaultWrites := s.vaultWrites ++ [w] }
        | none => s
      else s
    (.ok t.accessToken, s)
  | .grantErr => (.error "grant exchange failed", s)
  | .timedOut => (.error "User logon timed out", s)

/-- Whether `oauthLogin(conf)` returns a login operation at all:
`if (!conf.oauth) return` is the only short-circuit. -/
def oauthLoginDefined (conf : RemoteConfig) : Bool :=
  conf.oauth.isSome

/-- One whole invocation of the operation returned by
`oauthLogin(conf)` against collaborator behaviour `env`/`settle`,
starting from state `s0`: the start phase, the race, the timer firing,
and the resume phase, sequenced by who settles first. -/
def runLogin (conf : RemoteConfig) (o : OAuthConfig) (env : VaultEnv)
    (settle : Option (Nat × Option Token)) (s0 : OState) :
    Except String String × OState :=
  match loginStart conf o env s0 with
  | (.fast a, s) => (.ok a, s)
  | (.vaultErr, s) => (.error "vault load rejected", s)
  | (.started _, s) =>
    match race settle with
    | .timedOut => loginResume conf o .timedOut (timerFire s)
    | .tok t =>
      let (r, s1) := loginResume conf o (.tok t) s
      (r, timerFire s1)
    | .grantErr =>
      let (r, s1) := loginResume conf o .grantErr s
      (r, timerFire s1)

/-- What `futureToken(connId)` resolves to, evaluated against a state:
the stored token's accessToken now, or the eventual accessToken of the
pending grant found in the registry, or nothing.
```
export const futureToken = async (connId: string) => {
  const oldGrant = getToken(connId)
  if (oldGrant) return oldGrant.accessToken
  const pending = pendingGrants.get(connId)
  if (pending) return pending.then(t => t.accessToken)
}
```
-/
inductive FutureOut where
  | nowTok (accessToken : String)
  | eventual (grantId : Nat)
  | nothing
  deriving DecidableEq, Repr

/-- The `futureToken` query. -/
def futureToken (s : OState) (connId : String) : FutureOut :=
  match getToken s connId with
  | some g => .nowTok g.accessToken
  | none =>
    match lookupA s.pending connId with
    | some gid => .eventual gid
    | none => .nothing

/-- Two invocations of the same connection's login operation that both
start while no token exists and neither grant has settled
(`saveCredentials` false makes each start phase one atomic segment, so
this interleaving is the canonical one): A's start phase, then B's
start phase, then A's grant settles with `t1` and A resumes, then B's
grant settles with `t2` and B resumes, then both timers fire.  Returns
(A's outcome, B's outcome, final state). -/
def runTwoLogins (conf : RemoteConfig) (o : OAuthConfig) (env : VaultEnv)
    (t1 t2 : Token) (s0 : OState) :
    Except String String × Except String String × OState :=
  match loginStart conf o env s0 with
  | (.started _, s1) =>
    match loginStart conf o env s1 with
    | (.started _, s2) =>
      let (rA, s3) := loginResume conf o (.tok t1) s2
      let (rB, s4) := loginResume conf o (.tok t2) s3
      (rA, rB, timerFire (timerFire s4))
    | (out, s2) => (.error "unreached", .error (toString (repr out)), s2)
  | (out, s1) => (.error (toString (repr out)), .error "unreached", s1)

/-! ### Concrete fixtures used to instantiate the theorems -/

/-- A vault environment whose secret store is empty and whose refresh
exchange rejects. -/
def envNone : VaultEnv :=
  ⟨fun _ _ => .ok none, fun _ _ _ => .error ()⟩

/-- A vault environment holding a well-formed record and a succeeding
refresh exchange. -/
def envFull : VaultEnv :=
  ⟨fun _ _ => .ok (some (serializeToken ⟨"aOld", "rOld", "bearer"⟩)),
   fun _ r _ => .ok ⟨"aFresh", r, "bearer", "meta"⟩⟩

/-- A first grant result. -/
def tok1 : Token := ⟨"a1", "r1", "bearer", "e1"⟩

/-- A second, different grant result. -/
def tok2 : Token := ⟨"a2", "r2", "bearer", "e2"⟩

/-- A complete OAuth configuration with `saveCredentials` off. -/
def oc1 : OAuthConfig := ⟨"c1", "s1", "https://host", false⟩

/-- A connection using `oc1`. -/
def conf1 : RemoteConfig := ⟨"My Conn", some oc1⟩

/-- A complete OAuth configuration with `saveCredentials` on. -/
def ocSave : OAuthConfig := ⟨"c1", "s1", "https://host", true⟩

/-- A connection using `ocSave`. -/
def confSave : RemoteConfig := ⟨"My Conn", some ocSave⟩

/-- An OAuth configuration that is present but has an empty (falsy)
`clientId`. -/
def ocEmpty : OAuthConfig := ⟨"", "s1", "https://host", true⟩

/-- A connection using `ocEmpty`. -/
def confEmpty : RemoteConfig := ⟨"My Conn", some ocEmpty⟩

/-- A state whose token store already holds a valid token for
`conf1`'s connection id. -/
def stWithToken : OState :=
  { OState.init with tokens := [(formatKey "My Conn", ⟨"a0", "r0", "bearer"⟩)] }

/-! ### Helper lemmas on the association-list maps and the key escape -/

theorem lookupA_insertA_self {α : Type} (m : List (String × α)) (k : String) (v : α) :
    lookupA (insertA m k v) k = some v := by
  induction m with
  | nil => simp [insertA, lookupA]
  | cons p rest ih =>
    by_cases h : p.1 = k
    · simp [insertA, h, lookupA]
    · simp [insertA, h, lookupA, ih]

theorem lookupA_eraseA_insertA {α : Type} (m : List (String × α)) (k : String) (v : α)
    (h : lookupA m k = none) :
    lookupA (eraseA (insertA m k v) k) k = none := by
  induction m with
  | nil => simp [insertA, eraseA, lookupA]
  | cons p rest ih =>
    by_cases hk : p.1 = k
    · simp [lookupA, hk] at h
    · simp [lookupA, hk] at h
      simp [insertA, hk, eraseA, lookupA, ih h]

theorem escapeChar_idem (c : Char) : escapeChar (escapeChar c) = escapeChar c := by
  by_cases h : c.isAlphanum <;> simp [escapeChar, h]

theorem mapEscape_idem (l : List Char) :
    (l.map escapeChar).map escapeChar = l.map escapeChar := by
  induction l with
  | nil => rfl
  | cons c cs ih => simp [List.map, ih, escapeChar_idem]

theorem formatKey_idem (s : String) : formatKey (formatKey s) = formatKey s :=
  congrArg String.mk (mapEscape_idem s.data)

/-! ### Claim theorems -/

/-- Claim C7: round-trip validity of the vault record format.
Deserializing the serialization of a token with non-empty
accessToken, refreshToken and tokenType recovers all three fields, and
a serialized record whose accessToken, refreshToken or tokenType is
missing, null or empty deserializes to absent. -/
theorem c7_vault_record_roundtrip :
    (∀ d : TokenData,
        truthy d.accessToken = true → truthy d.refreshToken = true →
        truthy d.tokenType = true →
        deserializeToken (some (serializeToken d)) = .ok (some d))
    ∧ (∀ v : JExpr,
        (fieldTruthy v "accessToken" = false ∨ fieldTruthy v "refreshToken" = false ∨
          fieldTruthy v "tokenType" = false) →
        deserializeToken (some (.parsed v)) = .ok none) := by
  constructor
  · intro d h1 h2 h3
    obtain ⟨a, r, t⟩ := d
    have e1 : ("refreshToken" == "accessToken") = false := by decide
    have e2 : ("tokenType" == "accessToken") = false := by decide
    have e3 : ("tokenType" == "refreshToken") = false := by decide
    simp [deserializeToken, serializeToken, getStrField, fieldTruthy, List.lookup,
      e1, e2, e3, h1, h2, h3]
  · intro v h
    rcases h with h | h | h <;> simp [deserializeToken, h]

/-- Witness for C7 at a concrete valid token and a concrete record
with a missing refreshToken field. -/
theorem c7_vault_record_roundtrip_witness :
    deserializeToken (some (serializeToken ⟨"a1", "r1", "bearer"⟩)) =
      .ok (some ⟨"a1", "r1", "bearer"⟩) ∧
    deserializeToken (some (.parsed (.jobj [("accessToken", .fstr "a1"),
        ("tokenType", .fstr "bearer")]))) = .ok none :=
  ⟨c7_vault_record_roundtrip.1 ⟨"a1", "r1", "bearer"⟩ (by decide) (by decide) (by decide),
   c7_vault_record_roundtrip.2 _ (Or.inr (Or.inl (by decide)))⟩

/-- Claim C9: the vault-load operation never propagates an error to
its caller — for every behaviour of the secret store, the deserializer
and the refresh exchange it settles with `ok` (absent or a token), and
when it yields absent the orchestrator falls through to the
interactive-grant path. -/
theorem c9_fromVault_never_throws :
    (∀ (env : VaultEnv) (conf : RemoteConfig), ∃ r, (fromVaultT env conf).1 = .ok r)
    ∧ (∀ (conf : RemoteConfig) (o : OAuthConfig) (env : VaultEnv) (s0 : OState),
        getToken s0 (formatKey conf.name) = none →
        (fromVaultT env conf).1 = .ok none →
        (loginStart conf o env s0).1 = .started s0.nextGrantId) := by
  constructor
  · intro env conf
    cases hc : conf.oauth with
    | none => exact ⟨none, by simp [fromVaultT, hc]⟩
    | some o =>
      by_cases hg : truthy o.clientId ∧ truthy o.clientSecret ∧ truthy o.loginUrl
      · cases hb : fromVaultBody env o conf.name with
        | error e => exact ⟨none, by simp [fromVaultT, hc, hg, hb]⟩
        | ok r => exact ⟨r, by simp [fromVaultT, hc, hg, hb]⟩
      · exact ⟨none, by simp [fromVaultT, hc, hg]⟩
  · intro conf o env s0 htok hfv
    cases hs : o.saveCredentials with
    | false => simp [loginStart, htok, hs]
    | true =>
      rcases hp : fromVaultT env conf with ⟨fv, reads⟩
      rw [hp] at hfv
      simp at hfv
      subst hfv
      simp [loginStart, htok, hs, hp]

/-- Witness for C9: a store whose read rejects still yields `ok`, and
an absent vault result falls through to a started grant. -/
theorem c9_fromVault_never_throws_witness :
    (∃ r, (fromVaultT ⟨fun _ _ => .error (), fun _ _ _ => .error ()⟩ confSave).1 = .ok r) ∧
    (loginStart confSave ocSave envNone OState.init).1 = .started 0 :=
  ⟨c9_fromVault_never_throws.1 ⟨fun _ _ => .error (), fun _ _ _ => .error ()⟩ confSave,
   c9_fromVault_never_throws.2 confSave ocSave envNone OState.init (by rfl) (by rfl)⟩

/-- Claim C8: whenever the vault-restore path returns a token, that
token is the stripped result of a refresh exchange performed on the
stored record's refreshToken; the record handed back is the refresh
result, not the raw stored record. -/
theorem c8_restore_is_refreshed (env : VaultEnv) (conf : RemoteConfig) (t : TokenData)
    (h : (fromVaultT env conf).1 = .ok (some t)) :
    ∃ o tp d tok,
      conf.oauth = some o ∧
      env.getPassword (vaultId conf.name) o.clientId = .ok tp ∧
      deserializeToken tp = .ok (some d) ∧
      env.refresh d.accessToken d.refreshToken d.tokenType = .ok tok ∧
      t = strip tok ∧ t.accessToken = tok.accessToken := by
  cases hc : conf.oauth with
  | none => simp [fromVaultT, hc] at h
  | some o =>
    by_cases hg : truthy o.clientId ∧ truthy o.clientSecret ∧ truthy o.loginUrl
    · cases hgp : env.getPassword (vaultId conf.name) o.clientId with
      | error e => simp [fromVaultT, fromVaultBody, hc, hg, hgp] at h
      | ok tp =>
        cases hd : deserializeToken tp with
        | error e => simp [fromVaultT, fromVaultBody, hc, hg, hgp, hd] at h
        | ok td =>
          cases td with
          | none => simp [fromVaultT, fromVaultBody, hc, hg, hgp, hd] at h
          | some d =>
            cases hr : env.refresh d.accessToken d.refreshToken d.tokenType with
            | error e => simp [fromVaultT, fromVaultBody, hc, hg, hgp, hd, hr] at h
            | ok tok =>
              simp [fromVaultT, fromVaultBody, hc, hg, hgp, hd, hr] at h
              subst h
              exact ⟨o, tp, d, tok, rfl, hgp, hd, hr, rfl, rfl⟩
    · simp [fromVaultT, hc, hg] at h

/-- Witness for C8 at a concrete environment whose vault holds a valid
record and whose refresh exchange succeeds. -/
theorem c8_restore_is_refreshed_witness :
    ∃ o tp d tok,
      confSave.oauth = some o ∧
      envFull.getPassword (vaultId confSave.name) o.clientId = .ok tp ∧
      deserializeToken tp = .ok (some d) ∧
      envFull.refresh d.accessToken d.refreshToken d.tokenType = .ok tok ∧
      (⟨"aFresh", "rOld", "bearer"⟩ : TokenData) = strip tok ∧
      (⟨"aFresh", "rOld", "bearer"⟩ : TokenData).accessToken = tok.accessToken :=
  c8_restore_is_refreshed envFull confSave ⟨"aFresh", "rOld", "bearer"⟩ (by rfl)

/-- When the fast path and the vault path both miss, the start phase
of one `login` invocation starts exactly one server and one code-grant
exchange with the configured credentials, and registers the fresh
grant under `formatKey(connId)`. -/
theorem loginStart_slow (conf : RemoteConfig) (o : OAuthConfig) (env : VaultEnv)
    (s0 : OState)
    (htok : getToken s0 (formatKey conf.name) = none)
    (hvault : o.saveCredentials = false ∨ (fromVaultT env conf).1 = .ok none) :
    loginStart conf o env s0 =
      (.started s0.nextGrantId,
       { s0 with
         vaultReads :=
           s0.vaultReads + (if o.saveCredentials then (fromVaultT env conf).2 else 0),
         serversCreated := s0.serversCreated + 1,
         grantCalls := s0.grantCalls ++ [(o.loginUrl, o.clientId, o.clientSecret)],
         nextGrantId := s0.nextGrantId + 1,
         pending :=
           insertA s0.pending (formatKey (formatKey conf.name)) s0.nextGrantId }) := by
  cases hs : o.saveCredentials with
  | false => simp [loginStart, htok, hs]
  | true =>
    rcases hvault with hvault | hvault
    · rw [hvault] at hs
      cases hs
    · rcases hp : fromVaultT env conf with ⟨fv, reads⟩
      rw [hp] at hvault
      simp at hvault
      subst hvault
      simp [loginStart, htok, hs, hp]

/-- Claim C6: for a connection whose TokenStore entry already holds a
valid token, `login()` returns that token's accessToken and leaves the
state untouched: no vault read, no login server, no grant. -/
theorem c6_fast_path (conf : RemoteConfig) (o : OAuthConfig) (env : VaultEnv)
    (settle : Option (Nat × Option Token)) (s0 : OState) (g : TokenData)
    (hc : conf.oauth = some o)
    (hg : getToken s0 (formatKey conf.name) = some g)
    (_hvalid : truthy g.accessToken = true ∧ truthy g.refreshToken = true ∧
      truthy g.tokenType = true) :
    oauthLoginDefined conf = true ∧
    runLogin conf o env settle s0 = (.ok g.accessToken, s0) := by
  exact ⟨by simp [oauthLoginDefined, hc], by simp [runLogin, loginStart, hg]⟩

/-- Witness for C6: a store already holding a token for the
connection. -/
theorem c6_fast_path_witness :
    oauthLoginDefined conf1 = true ∧
    runLogin conf1 oc1 envNone none stWithToken = (.ok "a0", stWithToken) :=
  c6_fast_path conf1 oc1 envNone none stWithToken ⟨"a0", "r0", "bearer"⟩ rfl (by rfl)
    (by decide)

/-- Claim C5: if the interactive grant has not settled within 60
seconds, the login fails with the logon-timeout error and the login
server constructed by this invocation is closed exactly once (one
server created, one close performed by the timeout continuation). -/
theorem c5_timeout_fails_and_closes_once (conf : RemoteConfig) (o : OAuthConfig)
    (env : VaultEnv) (settle : Option (Nat × Option Token)) (s0 : OState)
    (htok : getToken s0 (formatKey conf.name) = none)
    (hvault : o.saveCredentials = false ∨ (fromVaultT env conf).1 = .ok none)
    (hlate : ∀ tg r, settle = some (tg, r) → 60000 ≤ tg) :
    (runLogin conf o env settle s0).1 = .error "User logon timed out" ∧
    (runLogin conf o env settle s0).2.timeoutCloses = s0.timeoutCloses + 1 ∧
    (runLogin conf o env settle s0).2.serversCreated = s0.serversCreated + 1 := by
  have hstart := loginStart_slow conf o env s0 htok hvault
  have hrace : race settle = .timedOut := by
    cases settle with
    | none => rfl
    | some p =>
      rcases p with ⟨tg, r⟩
      have h60 := hlate tg r rfl
      simp [race, Nat.not_lt.mpr h60]
  refine ⟨?_, ?_, ?_⟩ <;> simp [runLogin, hstart, hrace, loginResume, timerFire]

/-- Witness for C5: a grant that never settles. -/
theorem c5_timeout_fails_and_closes_once_witness :
    (runLogin conf1 oc1 envNone none OState.init).1 = .error "User logon timed out" ∧
    (runLogin conf1 oc1 envNone none OState.init).2.timeoutCloses =
      OState.init.timeoutCloses + 1 ∧
    (runLogin conf1 oc1 envNone none OState.init).2.serversCreated =
      OState.init.serversCreated + 1 :=
  c5_timeout_fails_and_closes_once conf1 oc1 envNone none OState.init (by rfl)
    (Or.inl rfl) (fun tg r h => nomatch h)

/-- Counterexample to claim C3: with the grant settling at 1000 ms
(well before the 60-second timeout), the grant's result is returned,
yet the timeout's later firing is not inert — it still closes the
login server (`timeoutCloses` ends at 1, not 0). -/
theorem c3_counterexample :
    (runLogin conf1 oc1 envNone (some (1000, some tok1)) OState.init).1 = .ok "a1" ∧
    (runLogin conf1 oc1 envNone (some (1000, some tok1)) OState.init).2.timeoutCloses ≠ 0 :=
  ⟨rfl, by decide⟩

/-- Claim C3 as amended: when the grant settles first, its result is
returned and the timeout's later firing does not alter that result,
but the timer still fires and performs one close of the login
server. -/
theorem c3_grant_first_result_kept (conf : RemoteConfig) (o : OAuthConfig)
    (env : VaultEnv) (s0 : OState) (tg : Nat) (t : Token)
    (htok : getToken s0 (formatKey conf.name) = none)
    (hvault : o.saveCredentials = false ∨ (fromVaultT env conf).1 = .ok none)
    (htg : tg < 60000) :
    (runLogin conf o env (some (tg, some t)) s0).1 = .ok t.accessToken ∧
    (runLogin conf o env (some (tg, some t)) s0).2.timeoutCloses =
      s0.timeoutCloses + 1 := by
  have hstart := loginStart_slow conf o env s0 htok hvault
  have hrace : race (some (tg, some t)) = .tok t := by simp [race, htg]
  constructor
  · simp [runLogin, hstart, hrace, loginResume, timerFire, setToken]
  · simp [runLogin, hstart, hrace, loginResume, timerFire, setToken]
    cases o.saveCredentials
    · simp
    · cases toVault conf t <;> simp

/-- Witness for the amended C3. -/
theorem c3_grant_first_result_kept_witness :
    (runLogin conf1 oc1 envNone (some (1000, some tok1)) OState.init).1 =
      .ok tok1.accessToken ∧
    (runLogin conf1 oc1 envNone (some (1000, some tok1)) OState.init).2.timeoutCloses =
      OState.init.timeoutCloses + 1 :=
  c3_grant_first_result_kept conf1 oc1 envNone OState.init 1000 tok1 (by rfl)
    (Or.inl rfl) (by decide)

/-- Counterexample to claim C2: a fresh-grant invocation whose grant
exchange fails (rejects at 1000 ms).  The race settles with a grant
error, yet the PendingGrantRegistry entry registered for the
connection is still present afterwards (`await pendingGrant` threw
before the `pendingGrants.delete` line). -/
theorem c2_counterexample :
    (runLogin conf1 oc1 envNone (some (1000, none)) OState.init).1 =
      .error "grant exchange failed" ∧
    lookupA (runLogin conf1 oc1 envNone (some (1000, none)) OState.init).2.pending
      (formatKey (formatKey "My Conn")) = some 0 :=
  ⟨rfl, rfl⟩

/-- Claim C2 as amended: for a fresh-grant invocation, the registry
entry is removed when the race settles with a token, and remains
registered when the race settles with a grant error or the timeout. -/
theorem c2_registry_cleared_iff_success (conf : RemoteConfig) (o : OAuthConfig)
    (env : VaultEnv) (settle : Option (Nat × Option Token)) (s0 : OState)
    (htok : getToken s0 (formatKey conf.name) = none)
    (hvault : o.saveCredentials = false ∨ (fromVaultT env conf).1 = .ok none)
    (hfresh : lookupA s0.pending (formatKey (formatKey conf.name)) = none) :
    (∀ t, race settle = .tok t →
      lookupA (runLogin conf o env settle s0).2.pending
        (formatKey (formatKey conf.name)) = none)
    ∧ (race settle = .grantErr ∨ race settle = .timedOut →
      lookupA (runLogin conf o env settle s0).2.pending
        (formatKey (formatKey conf.name)) = some s0.nextGrantId) := by
  have hstart := loginStart_slow conf o env s0 htok hvault
  constructor
  · intro t hrace
    simp [runLogin, hstart, hrace, loginResume, timerFire, setToken]
    cases o.saveCredentials
    · simp [lookupA_eraseA_insertA _ _ _ hfresh]
    · cases toVault conf t <;> simp [lookupA_eraseA_insertA _ _ _ hfresh]
  · intro hrace
    rcases hrace with hrace | hrace <;>
      simp [runLogin, hstart, hrace, loginResume, timerFire,
        lookupA_insertA_self]

/-- Witness for the amended C2: on a successful race the entry is
gone. -/
theorem c2_registry_cleared_iff_success_witness :
    lookupA (runLogin conf1 oc1 envNone (some (1000, some tok1)) OState.init).2.pending
      (formatKey (formatKey "My Conn")) = none :=
  (c2_registry_cleared_iff_success conf1 oc1 envNone (some (1000, some tok1))
    OState.init (by rfl) (Or.inl rfl) (by rfl)).1 tok1 (by rfl)

/-- Counterexample to claim C1: two calls to the login operation for
the same connection, both started while no token exists and before
either grant settles.  The first call resolves to its own grant's
accessToken "a1", the second to "a2" — not the identical accessToken —
and two code-grant exchanges are initiated, not exactly one. -/
theorem c1_counterexample :
    (runTwoLogins conf1 oc1 envNone tok1 tok2 OState.init).1 = .ok "a1" ∧
    (runTwoLogins conf1 oc1 envNone tok1 tok2 OState.init).2.1 = .ok "a2" ∧
    ("a1" : String) ≠ "a2" ∧
    (runTwoLogins conf1 oc1 envNone tok1 tok2 OState.init).2.2.grantCalls.length = 2 :=
  ⟨rfl, rfl, by decide, rfl⟩

/-- Claim C1 as amended: two calls to `login` that race for the same
connection id while no token exists each construct their own login
server and initiate their own code-grant exchange (two grants in
total), and each call resolves to its own grant's accessToken; the
PendingGrantRegistry does not deduplicate `login` calls (it only
serves `futureToken`). -/
theorem c1_each_call_starts_own_grant (conf : RemoteConfig) (o : OAuthConfig)
    (env : VaultEnv) (t1 t2 : Token) (s0 : OState)
    (hsave : o.saveCredentials = false)
    (htok : getToken s0 (formatKey conf.name) = none) :
    (runTwoLogins conf o env t1 t2 s0).1 = .ok t1.accessToken ∧
    (runTwoLogins conf o env t1 t2 s0).2.1 = .ok t2.accessToken ∧
    (runTwoLogins conf o env t1 t2 s0).2.2.grantCalls =
      s0.grantCalls ++ [(o.loginUrl, o.clientId, o.clientSecret),
                        (o.loginUrl, o.clientId, o.clientSecret)] ∧
    (runTwoLogins conf o env t1 t2 s0).2.2.serversCreated =
      s0.serversCreated + 2 := by
  have htok' : lookupA s0.tokens (formatKey conf.name) = none := htok
  refine ⟨?_, ?_, ?_, ?_⟩ <;>
    simp [runTwoLogins, loginStart, getToken, htok', hsave, loginResume,
      timerFire, setToken]

/-- Witness for the amended C1. -/
theorem c1_each_call_starts_own_grant_witness :
    (runTwoLogins conf1 oc1 envNone tok1 tok2 OState.init).1 = .ok tok1.accessToken ∧
    (runTwoLogins conf1 oc1 envNone tok1 tok2 OState.init).2.1 = .ok tok2.accessToken ∧
    (runTwoLogins conf1 oc1 envNone tok1 tok2 OState.init).2.2.grantCalls =
      OState.init.grantCalls ++ [(oc1.loginUrl, oc1.clientId, oc1.clientSecret),
                                 (oc1.loginUrl, oc1.clientId, oc1.clientSecret)] ∧
    (runTwoLogins conf1 oc1 envNone tok1 tok2 OState.init).2.2.serversCreated =
      OState.init.serversCreated + 2 :=
  c1_each_call_starts_own_grant conf1 oc1 envNone tok1 tok2 OState.init rfl (by rfl)

/-- Claim C4: while a grant is pending and the TokenStore has no token
for the connection, the key under which `oauthLogin` registered the
pending grant (`formatKey(formatKey(conf.name))`) equals the key
`futureToken` looks up (`formatKey(conf.name)`), so `futureToken`
resolves to the eventual token of exactly the grant this invocation
registered. -/
theorem c4_futureToken_sees_pending (conf : RemoteConfig) (o : OAuthConfig)
    (env : VaultEnv) (s0 : OState)
    (htok : getToken s0 (formatKey conf.name) = none)
    (hvault : o.saveCredentials = false ∨ (fromVaultT env conf).1 = .ok none) :
    formatKey (formatKey conf.name) = formatKey conf.name ∧
    (loginStart conf o env s0).1 = .started s0.nextGrantId ∧
    futureToken (loginStart conf o env s0).2 (formatKey conf.name) =
      .eventual s0.nextGrantId := by
  have hstart := loginStart_slow conf o env s0 htok hvault
  have htok' : lookupA s0.tokens (formatKey conf.name) = none := htok
  refine ⟨formatKey_idem conf.name, by simp [hstart], ?_⟩
  rw [hstart]
  simp [futureToken, getToken, htok', formatKey_idem, lookupA_insertA_self]

/-- Witness for C4. -/
theorem c4_futureToken_sees_pending_witness :
    formatKey (formatKey conf1.name) = formatKey conf1.name ∧
    (loginStart conf1 oc1 envNone OState.init).1 = .started OState.init.nextGrantId ∧
    futureToken (loginStart conf1 oc1 envNone OState.init).2 (formatKey conf1.name) =
      .eventual OState.init.nextGrantId :=
  c4_futureToken_sees_pending conf1 oc1 envNone OState.init (by rfl) (Or.inl rfl)

/-- Claim C10: an oauth object that is present but has an empty (or
any falsy) clientId, clientSecret or loginUrl does not short-circuit
`oauthLogin` — the login operation exists; invoking it performs no
vault read and no vault write (the field guards of `fromVault` and
`toVault` make both silent no-ops) while a code-grant exchange is
nevertheless initiated with the incomplete credentials. -/
theorem c10_incomplete_oauth_still_grants (conf : RemoteConfig) (o : OAuthConfig)
    (env : VaultEnv) (tg : Nat) (t : Token) (s0 : OState)
    (hc : conf.oauth = some o)
    (hmiss : ¬(truthy o.clientId = true ∧ truthy o.clientSecret = true ∧
      truthy o.loginUrl = true))
    (htok : getToken s0 (formatKey conf.name) = none)
    (htg : tg < 60000) :
    oauthLoginDefined conf = true ∧
    (runLogin conf o env (some (tg, some t)) s0).1 = .ok t.accessToken ∧
    (runLogin conf o env (some (tg, some t)) s0).2.vaultReads = s0.vaultReads ∧
    (runLogin conf o env (some (tg, some t)) s0).2.vaultWrites = s0.vaultWrites ∧
    (runLogin conf o env (some (tg, some t)) s0).2.grantCalls =
      s0.grantCalls ++ [(o.loginUrl, o.clientId, o.clientSecret)] := by
  have hv1 : (fromVaultT env conf).1 = .ok none := by simp [fromVaultT, hc, hmiss]
  have hv2 : (fromVaultT env conf).2 = 0 := by simp [fromVaultT, hc, hmiss]
  have hstart := loginStart_slow conf o env s0 htok (Or.inr hv1)
  have hrace : race (some (tg, some t)) = .tok t := by simp [race, htg]
  have htv : toVault conf t = none := by simp [toVault, hc, hmiss]
  refine ⟨by simp [oauthLoginDefined, hc], ?_, ?_, ?_, ?_⟩ <;>
    simp [runLogin, hstart, hrace, loginResume, timerFire, setToken, htv, hv2]

/-- Witness for C10 at a configuration whose clientId is empty. -/
theorem c10_incomplete_oauth_still_grants_witness :
    oauthLoginDefined confEmpty = true ∧
    (runLogin confEmpty ocEmpty envNone (some (1000, some tok1)) OState.init).1 =
      .ok tok1.accessToken ∧
    (runLogin confEmpty ocEmpty envNone (some (1000, some tok1)) OState.init).2.vaultReads =
      OState.init.vaultReads ∧
    (runLogin confEmpty ocEmpty envNone (some (1000, some tok1)) OState.init).2.vaultWrites =
      OState.init.vaultWrites ∧
    (runLogin confEmpty ocEmpty envNone (some (1000, some tok1)) OState.init).2.grantCalls =
      OState.init.grantCalls ++ [(ocEmpty.loginUrl, ocEmpty.clientId, ocEmpty.clientSecret)] :=
  c10_incomplete_oauth_still_grants confEmpty ocEmpty envNone 1000 tok1 OState.init
    rfl (by decide) (by rfl) (by decide)

end Oauth
